import Mathlib

/-!
Verification of the RAG pipeline core of the esg-copilot backend:
the document chunker (`vector_store.py`, `_chunk_content`) and the
response-generation service (`ai_service.py`), embedded shallowly.
Text is modelled as `List Char`; Python string slicing, `rfind`,
`strip`, lower/upper casing and the whitespace class are embedded
explicitly, and the while-loop of the chunker is given explicit fuel
so that non-termination of the Python loop is observable as `none`.
-/

namespace ESGCopilot

/-- Python whitespace class (ASCII part), as used by `str.strip` and
the regex class `\s`. -/
def isPyWs (c : Char) : Bool :=
  c = ' ' || c = '\t' || c = '\n' || c = '\x0B' || c = '\x0C' || c = '\r'

/-- Python `str.strip()`: remove leading and trailing whitespace. -/
def pyStrip (l : List Char) : List Char :=
  ((l.dropWhile isPyWs).reverse.dropWhile isPyWs).reverse

/-- Python slice `l[a:b]`, including the clamping and negative-index rules. -/
def pySlice (l : List Char) (a b : Int) : List Char :=
  let n : Int := l.length
  let a' : Int := if a < 0 then max (n + a) 0 else min a n
  let b' : Int := if b < 0 then max (n + b) 0 else min b n
  (l.drop a'.toNat).take (b' - a').toNat

/-- Slice with natural-number indices: `l[a:b]` for `0 ≤ a ≤ b`. -/
def sliceN (l : List Char) (a b : Nat) : List Char :=
  (l.drop a).take (b - a)

/-- Helper for Python `str.rfind`: scan the list keeping the index of the
last occurrence of `c` seen so far. -/
def rfindGo (c : Char) : List Char → Int → Int → Int
  | [], _, best => best
  | x :: xs, i, best => rfindGo c xs (i + 1) (if x = c then i else best)

/-- Python `chunk.rfind(c)`: index of the last occurrence of `c`, or `-1`. -/
def rfind (l : List Char) (c : Char) : Int := rfindGo c l 0 (-1)

/-- One iteration of the `_chunk_content` while-loop: from window start
`start`, compute the emitted (un-stripped) chunk together with the
(possibly boundary-adjusted) window end. -/
def chunkIter (content : List Char) (chunk_size : Nat) (start : Int) :
    List Char × Int :=
  let e : Int := start + (chunk_size : Int)
  if e < (content.length : Int) then
    let chunk := pySlice content start e
    let break_point := max (rfind chunk '.') (rfind chunk '\n')
    if break_point > start + ((chunk_size / 2 : Nat) : Int) then
      (pySlice content start (start + break_point + 1), start + break_point + 1)
    else (chunk, e)
  else (pySlice content start e, e)

/-- The `_chunk_content` while-loop, with explicit fuel: `none` means the
fuel was exhausted, i.e. the Python loop would still be running after that
many iterations. -/
def chunkLoop (content : List Char) (chunk_size overlap : Nat) :
    Nat → Int → List (List Char) → Option (List (List Char))
  | 0, _, _ => none
  | fuel + 1, start, chunks =>
    if start < (content.length : Int) then
      let p := chunkIter content chunk_size start
      let chunks' := chunks ++ [pyStrip p.1]
      let start' := p.2 - (overlap : Int)
      if (content.length : Int) ≤ start' then some chunks'
      else chunkLoop content chunk_size overlap fuel start' chunks'
    else some chunks

/-- `_chunk_content(content, chunk_size=1000, overlap=200)`, run with fuel
`content.length + 1` (for the default parameters each iteration advances
the window start by at least one character, so this fuel is sufficient). -/
def chunkContent (content : List Char) (chunk_size : Nat := 1000)
    (overlap : Nat := 200) : Option (List (List Char)) :=
  chunkLoop content chunk_size overlap (content.length + 1) 0 []

/-- Reconstruction described by the spec: concatenate the chunks in order,
dropping the first `overlap` characters of every chunk after the first. -/
def recon (overlap : Nat) : List (List Char) → List Char
  | [] => []
  | c :: rest => c ++ (rest.map (List.drop overlap)).flatten

/-! ### Basic facts about the string primitives -/

theorem pySlice_natCast (l : List Char) (a b : Nat) :
    pySlice l (a : Int) (b : Int) = sliceN l a b := by
  unfold pySlice sliceN
  have ha : ¬ ((a : Int) < 0) := by omega
  have hb : ¬ ((b : Int) < 0) := by omega
  simp only [if_neg ha, if_neg hb]
  have h1 : (min (a : Int) (l.length : Int)).toNat = min a l.length := by omega
  have h2 : (min (b : Int) (l.length : Int) - min (a : Int) (l.length : Int)).toNat
      = min b l.length - min a l.length := by omega
  rw [h1, h2]
  rcases Nat.le_total a l.length with hal | hal
  · rw [Nat.min_eq_left hal]
    rcases Nat.le_total b l.length with hbl | hbl
    · rw [Nat.min_eq_left hbl]
    · rw [Nat.min_eq_right hbl]
      rw [List.take_of_length_le (by simp only [List.length_drop]; omega),
        List.take_of_length_le (by simp only [List.length_drop]; omega)]
  · rw [Nat.min_eq_right hal]
    have hd : l.drop l.length = [] := by simp
    have hd' : l.drop a = [] := by
      apply List.eq_nil_of_length_eq_zero
      simp only [List.length_drop]
      omega
    rw [hd, hd']
    simp

theorem rfindGo_of_forall_ne (c : Char) :
    ∀ (l : List Char) (i best : Int), (∀ x ∈ l, x ≠ c) → rfindGo c l i best = best
  | [], _, _, _ => rfl
  | x :: xs, i, best, h => by
    have hx : x ≠ c := h x (List.mem_cons_self _ _)
    simp only [rfindGo, if_neg hx]
    exact rfindGo_of_forall_ne c xs (i + 1) best fun y hy => h y (List.mem_cons_of_mem _ hy)

theorem rfind_of_forall_ne {l : List Char} {c : Char} (h : ∀ x ∈ l, x ≠ c) :
    rfind l c = -1 :=
  rfindGo_of_forall_ne c l 0 (-1) h

theorem rfindGo_lt (c : Char) :
    ∀ (l : List Char) (i best : Int), best < i → rfindGo c l i best < i + l.length
  | [], i, best, h => by simpa using h
  | x :: xs, i, best, h => by
    simp only [rfindGo]
    have hb : (if x = c then i else best) < i + 1 := by
      split <;> omega
    have := rfindGo_lt c xs (i + 1) (if x = c then i else best) hb
    simp only [List.length_cons]
    omega

theorem rfind_lt_length (l : List Char) (c : Char) :
    rfind l c < (l.length : Int) := by
  have := rfindGo_lt c l 0 (-1) (by omega)
  simpa using this

theorem dropWhile_of_head_false {p : Char → Bool} :
    ∀ {l : List Char}, (∀ x ∈ l.take 1, p x = false) → List.dropWhile p l = l
  | [], _ => rfl
  | x :: xs, h => by
    have hx : p x = false := h x (by simp)
    simp [List.dropWhile_cons, hx]

theorem pyStrip_eq_self {l : List Char} (h : ∀ c ∈ l, isPyWs c = false) :
    pyStrip l = l := by
  unfold pyStrip
  rw [dropWhile_of_head_false fun x hx => h x (List.mem_of_mem_take hx)]
  rw [dropWhile_of_head_false fun x hx =>
    h x (List.mem_reverse.mp (List.mem_of_mem_take hx))]
  exact List.reverse_reverse l

/-! ### C2: the chunker loop need not terminate.

With `chunk_size = 10`, `overlap = 7` and the text below, the boundary
adjustment moves the window end back to index 7, and the next start is
`7 - 7 = 0` again: the start never advances, and the Python loop runs
forever.  The guard described by the spec ("force advancement by at least
1") does not exist in the code. -/

def c2Text : List Char := "aaaaaa.aaaaaaaaaaaa".toList

theorem chunkLoop_c2Text_step (fuel : Nat) (chunks : List (List Char)) :
    chunkLoop c2Text 10 7 (fuel + 1) 0 chunks =
      chunkLoop c2Text 10 7 fuel 0 (chunks ++ ["aaaaaa.".toList]) := rfl

/-- C2: the claim that `_chunk_content` terminates for every
`chunk_size > overlap > 0` is false: with `chunk_size = 10`, `overlap = 7`
and a 19-character text whose only period is at index 6, the window start
never advances, so the loop never terminates (every fuel is exhausted). -/
theorem chunkContent_c2Text_diverges :
    chunkContent c2Text 10 7 = none ∧
      ∀ fuel chunks, chunkLoop c2Text 10 7 fuel 0 chunks = none := by
  have h : ∀ fuel chunks, chunkLoop c2Text 10 7 fuel 0 chunks = none := by
    intro fuel
    induction fuel with
    | zero => intro chunks; rfl
    | succ n ih => intro chunks; rw [chunkLoop_c2Text_step]; exact ih _
  exact ⟨h _ _, h⟩

/-! ### Window algebra for the chunker -/

theorem mem_of_mem_sliceN {x : Char} {l : List Char} {a b : Nat}
    (h : x ∈ sliceN l a b) : x ∈ l :=
  List.mem_of_mem_drop (List.mem_of_mem_take h)

theorem sliceN_length (l : List Char) (a b : Nat) :
    (sliceN l a b).length = min (b - a) (l.length - a) := by
  simp [sliceN]

theorem sliceN_append (l : List Char) {a b c : Nat} (hab : a ≤ b) (hbc : b ≤ c) :
    sliceN l a b ++ sliceN l b c = sliceN l a c := by
  unfold sliceN
  rw [show c - a = (b - a) + (c - b) by omega, List.take_add]
  congr 1
  rw [List.drop_drop]
  congr 2
  omega

theorem sliceN_append_drop (l : List Char) {a b : Nat} (hab : a ≤ b) :
    sliceN l a b ++ l.drop b = l.drop a := by
  unfold sliceN
  rw [show l.drop b = (l.drop a).drop (b - a) by rw [List.drop_drop]; congr 1; omega]
  exact List.take_append_drop _ _

theorem sliceN_of_length_le (l : List Char) {a b : Nat} (h : l.length ≤ b) :
    sliceN l a b = l.drop a := by
  unfold sliceN
  apply List.take_of_length_le
  simp only [List.length_drop]
  omega

theorem drop_sliceN (l : List Char) (a b k : Nat) :
    (sliceN l a b).drop k = sliceN l (a + k) b := by
  unfold sliceN
  rw [List.drop_take, List.drop_drop]
  congr 1
  omega

/-- Unfolding lemma for one iteration of the loop. -/
theorem chunkLoop_succ (content : List Char) (cs ov fuel : Nat) (start : Int)
    (chunks : List (List Char)) :
    chunkLoop content cs ov (fuel + 1) start chunks =
      if start < (content.length : Int) then
        if (content.length : Int) ≤ (chunkIter content cs start).2 - (ov : Int) then
          some (chunks ++ [pyStrip (chunkIter content cs start).1])
        else
          chunkLoop content cs ov fuel ((chunkIter content cs start).2 - (ov : Int))
            (chunks ++ [pyStrip (chunkIter content cs start).1])
      else some chunks := rfl

/-- When the window end reaches past the end of the text, no boundary
adjustment happens. -/
theorem chunkIter_of_le (content : List Char) (cs : Nat) (s : Nat)
    (h : (content.length : Int) ≤ (s : Int) + (cs : Int)) :
    chunkIter content cs (s : Int) =
      (sliceN content s (s + cs), ((s + cs : Nat) : Int)) := by
  unfold chunkIter
  rw [if_neg (by omega)]
  rw [show (s : Int) + (cs : Int) = ((s + cs : Nat) : Int) by push_cast; ring]
  rw [pySlice_natCast]

/-- When the window contains no period and no newline, no boundary
adjustment happens (the break point is `-1`). -/
theorem chunkIter_of_no_break (content : List Char) (cs : Nat) (s : Nat)
    (hlt : (s : Int) + (cs : Int) < (content.length : Int))
    (hdot : ∀ x ∈ sliceN content s (s + cs), x ≠ '.')
    (hnl : ∀ x ∈ sliceN content s (s + cs), x ≠ '\n') :
    chunkIter content cs (s : Int) =
      (sliceN content s (s + cs), ((s + cs : Nat) : Int)) := by
  unfold chunkIter
  rw [if_pos hlt]
  have hcast : (s : Int) + (cs : Int) = ((s + cs : Nat) : Int) := by push_cast; ring
  simp only [hcast, pySlice_natCast, rfind_of_forall_ne hdot, rfind_of_forall_ne hnl]
  rw [if_neg (by rw [max_self]; omega)]

/-- With the default `chunk_size = 1000`, every iteration emits a window
`content[s:e]` with `s + 502 ≤ e ≤ s + 1000`: a boundary adjustment needs a
break point past `s + 500`, so the adjusted end still advances well past
the overlap of 200. -/
theorem chunkIter_spec (content : List Char) (s : Nat) :
    ∃ e : Nat, chunkIter content 1000 (s : Int) = (sliceN content s e, (e : Int)) ∧
      s + 502 ≤ e ∧ e ≤ s + 1000 := by
  by_cases h : (s : Int) + ((1000 : Nat) : Int) < (content.length : Int)
  · unfold chunkIter
    rw [if_pos h]
    have hcast : (s : Int) + ((1000 : Nat) : Int) = ((s + 1000 : Nat) : Int) := by
      push_cast; ring
    by_cases hbp : max (rfind (pySlice content (s : Int) ((s : Int) + ((1000 : Nat) : Int))) '.')
        (rfind (pySlice content (s : Int) ((s : Int) + ((1000 : Nat) : Int))) '\n') >
        (s : Int) + ((1000 / 2 : Nat) : Int)
    · set bp := max (rfind (pySlice content (s : Int) ((s : Int) + ((1000 : Nat) : Int))) '.')
        (rfind (pySlice content (s : Int) ((s : Int) + ((1000 : Nat) : Int))) '\n') with hbpdef

      have hlen : (pySlice content (s : Int) ((s : Int) + ((1000 : Nat) : Int))).length ≤ 1000 := by
        rw [hcast, pySlice_natCast, sliceN_length]
        omega
      have hub : bp < 1000 := by
        have h1 := rfind_lt_length (pySlice content (s : Int) ((s : Int) + ((1000 : Nat) : Int))) '.'
        have h2 := rfind_lt_length (pySlice content (s : Int) ((s : Int) + ((1000 : Nat) : Int))) '\n'
        rw [hbpdef]
        have : ((pySlice content (s : Int) ((s : Int) + ((1000 : Nat) : Int))).length : Int) ≤ 1000 := by
          exact_mod_cast hlen
        omega
      have hlb : (s : Int) + 500 < bp := by
        have : ((1000 / 2 : Nat) : Int) = 500 := by norm_num
        omega
      refine ⟨s + bp.toNat + 1, ?_, by omega, by omega⟩
      rw [if_pos hbp]
      have hcast2 : (s : Int) + bp + 1 = ((s + bp.toNat + 1 : Nat) : Int) := by
        push_cast; omega
      rw [hcast2, pySlice_natCast]
    · rw [if_neg hbp]
      exact ⟨s + 1000, by rw [hcast, pySlice_natCast], by omega, by omega⟩
  · refine ⟨s + 1000, ?_, by omega, by omega⟩
    exact chunkIter_of_le content 1000 s (by push_cast at h ⊢; omega)

/-- Core invariant of the default-parameter chunker on whitespace-free text:
from any window start `s < length`, with enough fuel the loop returns the
accumulated chunks followed by the windows `content[s:e₁], content[e₁-200:e₂], …`,
and the first window concatenated with the overlap-trimmed rest rebuilds
`content.drop s`. -/
theorem chunkLoop_recon (content : List Char)
    (hws : ∀ c ∈ content, isPyWs c = false) :
    ∀ (fuel : Nat) (s : Nat) (chunks : List (List Char)),
      s < content.length → content.length < s + fuel →
      ∃ e tl, s + 200 ≤ e ∧
        chunkLoop content 1000 200 fuel (s : Int) chunks =
          some (chunks ++ sliceN content s e :: tl) ∧
        sliceN content s e ++ (tl.map (List.drop 200)).flatten = content.drop s := by
  intro fuel
  induction fuel with
  | zero => intro s chunks h1 h2; omega
  | succ f ih =>
    intro s chunks h1 h2
    obtain ⟨e, hiter, he1, he2⟩ := chunkIter_spec content s
    have hstrip : pyStrip (sliceN content s e) = sliceN content s e :=
      pyStrip_eq_self fun c hc => hws c (mem_of_mem_sliceN hc)
    have hcastE : (e : Int) - ((200 : Nat) : Int) = ((e - 200 : Nat) : Int) := by
      push_cast; omega
    rw [chunkLoop_succ, if_pos (by exact_mod_cast h1), hiter]
    simp only [hstrip, hcastE]
    by_cases hstop : (content.length : Int) ≤ ((e - 200 : Nat) : Int)
    · rw [if_pos hstop]
      refine ⟨e, [], by omega, rfl, ?_⟩
      simp only [List.map_nil, List.flatten_nil, List.append_nil]
      exact sliceN_of_length_le content (by omega)
    · rw [if_neg hstop]
      have hlt : e - 200 < content.length := by omega
      obtain ⟨e₂, tl₂, he₂, hloop₂, hrec₂⟩ :=
        ih (e - 200) (chunks ++ [sliceN content s e]) hlt (by omega)
      refine ⟨e, sliceN content (e - 200) e₂ :: tl₂, by omega, ?_, ?_⟩
      · rw [hloop₂]
        simp
      · have hse : s ≤ e - 200 := by omega
        have hee : e ≤ e₂ := by omega
        have hle2 : e - 200 ≤ e₂ := by omega
        have he200 : e - 200 + 200 = e := by omega
        calc sliceN content s e ++
              ((sliceN content (e - 200) e₂ :: tl₂).map (List.drop 200)).flatten
            = (sliceN content s e ++ sliceN content e e₂) ++
              (tl₂.map (List.drop 200)).flatten := by
              rw [List.map_cons, List.flatten_cons, drop_sliceN, he200,
                List.append_assoc]
          _ = sliceN content s e₂ ++ (tl₂.map (List.drop 200)).flatten := by
              rw [sliceN_append content (by omega) hee]
          _ = (sliceN content s (e - 200) ++ sliceN content (e - 200) e₂) ++
              (tl₂.map (List.drop 200)).flatten := by
              rw [sliceN_append content hse hle2]
          _ = sliceN content s (e - 200) ++
              (sliceN content (e - 200) e₂ ++ (tl₂.map (List.drop 200)).flatten) := by
              rw [List.append_assoc]
          _ = sliceN content s (e - 200) ++ content.drop (e - 200) := by rw [hrec₂]
          _ = content.drop s := sliceN_append_drop content hse

/-- C7 (amended): on text with no whitespace characters (so that the
per-chunk `strip()` is a no-op), the chunks produced by `_chunk_content`
with the default `chunk_size = 1000`, `overlap = 200` reconstruct the
original text exactly: concatenate the chunks in order, dropping the first
200 characters of every chunk after the first. -/
theorem chunkContent_reconstructs_ws_free (content : List Char)
    (hws : ∀ c ∈ content, isPyWs c = false) :
    ∃ chunks, chunkContent content = some chunks ∧ recon 200 chunks = content := by
  by_cases hnil : content = []
  · subst hnil
    exact ⟨[], rfl, rfl⟩
  · have hlen : 0 < content.length := List.length_pos.mpr hnil
    obtain ⟨e, tl, he, hloop, hrec⟩ :=
      chunkLoop_recon content hws (content.length + 1) 0 [] hlen (by omega)
    refine ⟨sliceN content 0 e :: tl, ?_, ?_⟩
    · unfold chunkContent
      rw [show (0 : Int) = ((0 : Nat) : Int) by norm_num, hloop]
      simp
    · show sliceN content 0 e ++ (tl.map (List.drop 200)).flatten = content
      rw [hrec, List.drop_zero]

theorem chunkContent_reconstructs_ws_free_witness :
    ∃ chunks, chunkContent "abc".toList = some chunks ∧
      recon 200 chunks = "abc".toList :=
  chunkContent_reconstructs_ws_free ("abc".toList) (by decide)

/-! ### C7, counterexample: stripping a window that starts with whitespace
shifts the overlap, so overlap-trimmed concatenation loses real characters. -/

theorem pyStrip_eq_self_of_ends {l : List Char}
    (h1 : ∀ c ∈ l.take 1, isPyWs c = false)
    (h2 : ∀ c ∈ l.reverse.take 1, isPyWs c = false) :
    pyStrip l = l := by
  unfold pyStrip
  rw [dropWhile_of_head_false h1, dropWhile_of_head_false h2, List.reverse_reverse]

/-- 1001 characters: 800 `a`s, one space, 200 `b`s.  The second window
starts at index 800, i.e. exactly on the space. -/
def c7Text : List Char := List.replicate 800 'a' ++ ' ' :: List.replicate 200 'b'

theorem c7Text_length : c7Text.length = 1001 := by
  unfold c7Text
  rw [List.length_append, List.length_replicate, List.length_cons,
    List.length_replicate]

theorem c7Text_forall_mem : ∀ x ∈ c7Text, x = 'a' ∨ x = ' ' ∨ x = 'b' := by
  intro x hx
  simp only [c7Text, List.mem_append, List.mem_cons, List.mem_replicate] at hx
  tauto

theorem c7Text_window0 :
    sliceN c7Text 0 1000 = List.replicate 800 'a' ++ ' ' :: List.replicate 199 'b' := by
  unfold sliceN c7Text
  rw [List.drop_zero, Nat.sub_zero, List.take_append_eq_append_take,
    List.take_replicate, List.length_replicate]
  rw [show min 1000 800 = 800 from rfl, show (1000 - 800 : Nat) = 199 + 1 from rfl]
  rw [List.take_succ_cons, List.take_replicate, show min 199 200 = 199 from rfl]

theorem c7Text_window1 :
    sliceN c7Text 800 1800 = ' ' :: List.replicate 200 'b' := by
  unfold sliceN c7Text
  rw [List.drop_left' (by rw [List.length_replicate])]
  rw [List.take_of_length_le (by rw [List.length_cons, List.length_replicate]; omega)]

theorem chunkContent_c7Text :
    chunkContent c7Text =
      some [List.replicate 800 'a' ++ ' ' :: List.replicate 199 'b',
        List.replicate 200 'b'] := by
  have hiter0 : chunkIter c7Text 1000 ((0 : Nat) : Int) =
      (sliceN c7Text 0 (0 + 1000), ((0 + 1000 : Nat) : Int)) := by
    apply chunkIter_of_no_break c7Text 1000 0
    · rw [c7Text_length]; norm_num
    · intro x hx
      rcases c7Text_forall_mem x (mem_of_mem_sliceN hx) with h | h | h <;> subst h <;> decide
    · intro x hx
      rcases c7Text_forall_mem x (mem_of_mem_sliceN hx) with h | h | h <;> subst h <;> decide
  have hiter800 : chunkIter c7Text 1000 ((800 : Nat) : Int) =
      (sliceN c7Text 800 (800 + 1000), ((800 + 1000 : Nat) : Int)) := by
    apply chunkIter_of_le c7Text 1000 800
    rw [c7Text_length]; norm_num
  norm_num at hiter0 hiter800
  have htake1 : (List.replicate 800 'a' ++ ' ' :: List.replicate 199 'b').take 1 =
      ['a'] := by
    rw [List.take_append_eq_append_take, List.take_replicate, List.length_replicate]
    rfl
  have hrev1 : (List.replicate 800 'a' ++
      ' ' :: List.replicate 199 'b').reverse.take 1 = ['b'] := by
    rw [List.reverse_append, List.reverse_cons, List.reverse_replicate,
      List.reverse_replicate, List.take_append_eq_append_take,
      List.take_append_eq_append_take, List.take_replicate, List.length_replicate,
      List.length_append, List.length_replicate]
    rfl
  have hstrip0 : pyStrip (sliceN c7Text 0 1000) =
      List.replicate 800 'a' ++ ' ' :: List.replicate 199 'b' := by
    rw [c7Text_window0]
    apply pyStrip_eq_self_of_ends
    · rw [htake1]; decide
    · rw [hrev1]; decide
  have hstrip800 : pyStrip (sliceN c7Text 800 1800) = List.replicate 200 'b' := by
    rw [c7Text_window1]
    unfold pyStrip
    rw [List.dropWhile_cons, if_pos (by decide)]
    rw [List.dropWhile_replicate, if_neg (by decide)]
    rw [List.reverse_replicate, List.dropWhile_replicate, if_neg (by decide),
      List.reverse_replicate]
  unfold chunkContent
  rw [c7Text_length, chunkLoop_succ]
  rw [if_pos (by rw [c7Text_length]; norm_num)]
  rw [hiter0]
  dsimp only
  rw [if_neg (by rw [c7Text_length]; norm_num)]
  rw [show ((1000 : Int) - ((200 : Nat) : Int)) = 800 by norm_num]
  rw [show (1001 : Nat) = 1000 + 1 from rfl, chunkLoop_succ]
  rw [if_pos (by rw [c7Text_length]; norm_num)]
  rw [hiter800]
  dsimp only
  rw [if_pos (by rw [c7Text_length]; norm_num)]
  rw [hstrip0, hstrip800]
  rfl

theorem recon_c7Text :
    recon 200 [List.replicate 800 'a' ++ ' ' :: List.replicate 199 'b',
        List.replicate 200 'b'] =
      List.replicate 800 'a' ++ ' ' :: List.replicate 199 'b' := by
  simp only [recon]
  rw [List.map_cons, List.map_nil, List.flatten_cons, List.flatten_nil,
    List.drop_replicate, show (200 - 200 : Nat) = 0 from rfl,
    List.replicate_zero, List.append_nil, List.append_nil]

theorem filter_c7Text :
    c7Text.filter (fun c => !isPyWs c) =
      List.replicate 800 'a' ++ List.replicate 200 'b' := by
  unfold c7Text
  rw [List.filter_append, List.filter_cons_of_neg (by decide),
    List.filter_replicate, List.filter_replicate,
    if_pos (by decide), if_pos (by decide)]

theorem filter_c7Chunk0 :
    (List.replicate 800 'a' ++ ' ' :: List.replicate 199 'b').filter
        (fun c => !isPyWs c) =
      List.replicate 800 'a' ++ List.replicate 199 'b' := by
  rw [List.filter_append, List.filter_cons_of_neg (by decide),
    List.filter_replicate, List.filter_replicate,
    if_pos (by decide), if_pos (by decide)]

/-- C7 (counterexample): for the 1001-character text `c7Text` the
overlap-trimmed concatenation of the chunks does *not* reconstruct the
text "up to whitespace trimming at the chunk edges": the second window
starts with a space that `strip()` removes, so trimming the fixed overlap
of 200 characters from the stripped chunk also discards a real,
non-whitespace character (a `b`). The non-whitespace content of the
reconstruction differs from that of the original text. -/
theorem chunk_coverage_claim_false :
    (chunkContent c7Text).map
        (fun chunks => (recon 200 chunks).filter (fun c => !isPyWs c)) ≠
      some (c7Text.filter (fun c => !isPyWs c)) := by
  rw [chunkContent_c7Text, Option.map_some', recon_c7Text, filter_c7Text,
    filter_c7Chunk0]
  intro h
  have h2 := Option.some.inj h
  have hlen := congrArg List.length h2
  simp only [List.length_append, List.length_replicate] at hlen
  omega

/-! ### C3: a 2,500-character text with the default parameters -/

def c3Text : List Char := List.replicate 2500 'a'

theorem c3Text_length : c3Text.length = 2500 := by
  unfold c3Text
  rw [List.length_replicate]

theorem sliceN_replicate (n a b : Nat) (ch : Char) :
    sliceN (List.replicate n ch) a b = List.replicate (min (b - a) (n - a)) ch := by
  unfold sliceN
  rw [List.drop_replicate, List.take_replicate]

theorem pyStrip_replicate_a (k : Nat) :
    pyStrip (List.replicate k 'a') = List.replicate k 'a' :=
  pyStrip_eq_self fun c hc => by rw [List.eq_of_mem_replicate hc]; decide

theorem chunkContent_c3Text :
    chunkContent c3Text =
      some [List.replicate 1000 'a', List.replicate 1000 'a',
        List.replicate 900 'a', List.replicate 100 'a'] := by
  have hmem : ∀ (a b : Nat) (x : Char), x ∈ sliceN c3Text a b → x = 'a' := by
    intro a b x hx
    exact List.eq_of_mem_replicate (mem_of_mem_sliceN (l := c3Text) hx)
  have hiter0 : chunkIter c3Text 1000 ((0 : Nat) : Int) =
      (sliceN c3Text 0 (0 + 1000), ((0 + 1000 : Nat) : Int)) := by
    apply chunkIter_of_no_break c3Text 1000 0
    · rw [c3Text_length]; norm_num
    · intro x hx; rw [hmem _ _ x hx]; decide
    · intro x hx; rw [hmem _ _ x hx]; decide
  have hiter800 : chunkIter c3Text 1000 ((800 : Nat) : Int) =
      (sliceN c3Text 800 (800 + 1000), ((800 + 1000 : Nat) : Int)) := by
    apply chunkIter_of_no_break c3Text 1000 800
    · rw [c3Text_length]; norm_num
    · intro x hx; rw [hmem _ _ x hx]; decide
    · intro x hx; rw [hmem _ _ x hx]; decide
  have hiter1600 : chunkIter c3Text 1000 ((1600 : Nat) : Int) =
      (sliceN c3Text 1600 (1600 + 1000), ((1600 + 1000 : Nat) : Int)) := by
    apply chunkIter_of_le c3Text 1000 1600
    rw [c3Text_length]; norm_num
  have hiter2400 : chunkIter c3Text 1000 ((2400 : Nat) : Int) =
      (sliceN c3Text 2400 (2400 + 1000), ((2400 + 1000 : Nat) : Int)) := by
    apply chunkIter_of_le c3Text 1000 2400
    rw [c3Text_length]; norm_num
  norm_num at hiter0 hiter800 hiter1600 hiter2400
  have hs0 : sliceN c3Text 0 1000 = List.replicate 1000 'a' := by
    unfold c3Text; rw [sliceN_replicate]; norm_num
  have hs800 : sliceN c3Text 800 1800 = List.replicate 1000 'a' := by
    unfold c3Text; rw [sliceN_replicate]; norm_num
  have hs1600 : sliceN c3Text 1600 2600 = List.replicate 900 'a' := by
    unfold c3Text; rw [sliceN_replicate]; norm_num
  have hs2400 : sliceN c3Text 2400 3400 = List.replicate 100 'a' := by
    unfold c3Text; rw [sliceN_replicate]; norm_num
  unfold chunkContent
  rw [c3Text_length, chunkLoop_succ]
  rw [if_pos (by rw [c3Text_length]; norm_num)]
  rw [hiter0]
  dsimp only
  rw [if_neg (by rw [c3Text_length]; norm_num)]
  rw [show ((1000 : Int) - ((200 : Nat) : Int)) = 800 by norm_num]
  rw [show (2500 : Nat) = 2499 + 1 from rfl, chunkLoop_succ]
  rw [if_pos (by rw [c3Text_length]; norm_num)]
  rw [hiter800]
  dsimp only
  rw [if_neg (by rw [c3Text_length]; norm_num)]
  rw [show ((1800 : Int) - ((200 : Nat) : Int)) = 1600 by norm_num]
  rw [show (2499 : Nat) = 2498 + 1 from rfl, chunkLoop_succ]
  rw [if_pos (by rw [c3Text_length]; norm_num)]
  rw [hiter1600]
  dsimp only
  rw [if_neg (by rw [c3Text_length]; norm_num)]
  rw [show ((2600 : Int) - ((200 : Nat) : Int)) = 2400 by norm_num]
  rw [show (2498 : Nat) = 2497 + 1 from rfl, chunkLoop_succ]
  rw [if_pos (by rw [c3Text_length]; norm_num)]
  rw [hiter2400]
  dsimp only
  rw [if_pos (by rw [c3Text_length]; norm_num)]
  simp only [hs0, hs800, hs1600, hs2400, pyStrip_replicate_a]
  rfl

/-- C3 (counterexample): chunking the 2,500-character all-`a` text with the
default `chunk_size = 1000`, `overlap = 200` produces 4 chunks
(window starts 0, 800, 1600, 2400), not the 3 chunks the spec claims. -/
theorem chunk_2500_not_three_chunks :
    (chunkContent c3Text).map List.length ≠ some 3 := by
  rw [chunkContent_c3Text, Option.map_some']
  intro h
  have h4 := Option.some.inj h
  rw [List.length_cons, List.length_cons, List.length_cons, List.length_cons,
    List.length_nil] at h4
  omega

/-- C3 (amended): chunking a 2,500-character text with no sentence-boundary
characters (`chunk_size = 1000`, `overlap = 200`) produces exactly 4 chunks
of lengths 1000, 1000, 900, 100 — each at most 1000 characters — the loop
terminating when the window start (3200 ≥ 2500) passes the text length, and
consecutive chunks overlap: each chunk after the first starts with the
last 200 characters of the preceding window. -/
theorem chunk_2500_default_behavior :
    chunkContent c3Text =
        some [List.replicate 1000 'a', List.replicate 1000 'a',
          List.replicate 900 'a', List.replicate 100 'a'] ∧
      (List.replicate 1000 'a').length ≤ 1000 ∧
      (List.replicate 900 'a').length ≤ 1000 ∧
      (List.replicate 100 'a').length ≤ 1000 ∧
      (List.replicate 1000 'a').take 200 = (List.replicate 1000 'a').drop 800 ∧
      (List.replicate 900 'a').take 200 = (List.replicate 1000 'a').drop 800 ∧
      List.replicate 100 'a' = (List.replicate 900 'a').drop 800 := by
  refine ⟨chunkContent_c3Text, ?_, ?_, ?_, ?_, ?_, ?_⟩
  · rw [List.length_replicate]
  · rw [List.length_replicate]; omega
  · rw [List.length_replicate]; omega
  · rw [List.take_replicate, List.drop_replicate]; norm_num
  · rw [List.take_replicate, List.drop_replicate]; norm_num
  · rw [List.drop_replicate]

/-! ## `ai_service.py`: the response generator

The external collaborators — the vector store (a chromadb index), the LLM
and the JSON parser of the standard library — are modelled as oracles in an
environment record; everything else is embedded from the source.  Fallible
calls return `Except`: `generate_response` itself returns `Except` because
the retrieval phase sits *outside* its try/except block.  The two wall-clock
readings `time.time()` are modelled as the environment values `tStart`
(taken on entry) and `tEnd` (taken when the response dictionary is built). -/

/-- A retrieval result as produced by `VectorStore.search`: the content, the
metadata fields that the service reads, the distance (absent when the index
reports none) and the chunk id. -/
structure RetrievedDoc where
  content : List Char
  filename : Option (List Char)
  framework : Option (List Char)
  category : Option (List Char)
  distance : Option ℚ
  id : List Char
deriving DecidableEq

/-- `doc.get("distance", 1.0)` -/
def getDistance (d : RetrievedDoc) : ℚ := d.distance.getD 1

/-- Round to the nearest integer, ties to the even integer, as the
built-in `round` of Python does. -/
def roundHalfEven (q : ℚ) : ℤ :=
  let n := ⌊q⌋
  let r := q - (n : ℚ)
  if r < 1 / 2 then n
  else if 1 / 2 < r then n + 1
  else if Even n then n else n + 1

/-- Python `round(q, 2)`. -/
def pyRound2 (q : ℚ) : ℚ := (roundHalfEven (q * 100) : ℚ) / 100

/-- `_calculate_confidence` -/
def calculateConfidence (documents : List RetrievedDoc) : ℚ :=
  if documents = [] then 0
  else
    let total_distance := (documents.map getDistance).sum
    let avg_distance := total_distance / documents.length
    pyRound2 (max 0 (min 1 (1 - avg_distance)))

/-- Modelled from the words of the spec, for refinement against
`calculateConfidence`: "confidence is computed as
`clamp(1 - mean(distance over all retrieved results), 0, 1)`, rounded to 2
decimals; an empty result set yields confidence 0.0". -/
def specConfidence (distances : List ℚ) : ℚ :=
  if distances = [] then 0
  else pyRound2 (max 0 (min 1 (1 - distances.sum / distances.length)))

/-! ### Prompt templates (`_load_prompts`) -/

def basePrompt : List Char :=
  "ESG consultant expert. Provide accurate, practical advice on sustainability reporting frameworks (GRI, SASB, TCFD, CSRD, IFRS). Cite specific standards when relevant. Be professional and concise.".toList

def griPrompt : List Char :=
  "GRI Standards expert. Focus on materiality, stakeholder inclusiveness, sustainability context, and completeness. Reference specific GRI disclosures clearly.".toList

def sasbPrompt : List Char :=
  "SASB Standards expert. Focus on industry-specific, financially material sustainability topics. Emphasize investor perspective and quantitative metrics.".toList

def tcfdPrompt : List Char :=
  "TCFD expert. Cover governance, strategy, risk management, and metrics/targets for climate-related financial disclosures.".toList

def csrdPrompt : List Char :=
  "CSRD expert. Cover double materiality, ESG reporting, third-party assurance, digital tagging, and ESRS alignment for EU compliance.".toList

def ifrsPrompt : List Char :=
  "IFRS Sustainability Standards expert. Cover S1 (general requirements) and S2 (climate disclosures) including governance, strategy, risk management, metrics, targets, and GHG emissions.".toList

def reportGenerationPrompt : List Char :=
  "Sustainability report writer. Use clear, professional language with specific data and metrics. Follow framework requirements, structure logically, provide context, and avoid greenwashing.".toList

def compliancePrompt : List Char :=
  "ESG compliance expert. Identify requirements, deadlines, scope, framework differences, implementation steps, compliance gaps, and risk mitigation strategies.".toList

def riskManagementPrompt : List Char :=
  "ESG risk management expert. Consider physical/transition climate risks, social/governance risks, supply chain vulnerabilities, regulatory/reputational risks, and provide mitigation strategies.".toList

def benchmarkingPrompt : List Char :=
  "ESG benchmarking expert. Compare performance metrics, disclosure practices, best practices, performance gaps, industry challenges, and provide actionable recommendations.".toList

/-- The `framework_templates` dictionary in `_select_prompt_template`. -/
def frameworkTemplate (fw : List Char) : Option (List Char) :=
  if fw = "GRI".toList then some griPrompt
  else if fw = "SASB".toList then some sasbPrompt
  else if fw = "TCFD".toList then some tcfdPrompt
  else if fw = "CSRD".toList then some csrdPrompt
  else if fw = "ESRS".toList then some csrdPrompt
  else if fw = "IFRS-S1".toList then some ifrsPrompt
  else if fw = "IFRS-S2".toList then some ifrsPrompt
  else if fw = "UK-TCFD".toList then some tcfdPrompt
  else if fw = "CANADA-TCFD".toList then some tcfdPrompt
  else if fw = "AUSTRALIA-CLIMATE".toList then some tcfdPrompt
  else if fw = "JAPAN-TCFD".toList then some tcfdPrompt
  else if fw = "SEC-CLIMATE".toList then some sasbPrompt
  else if fw = "CALIFORNIA-SB253".toList then some sasbPrompt
  else if fw = "SFDR".toList then some csrdPrompt
  else if fw = "UK-SDR".toList then some tcfdPrompt
  else if fw = "CANADA-ESG".toList then some griPrompt
  else if fw = "AUSTRALIA-ESG".toList then some griPrompt
  else if fw = "JAPAN-ESG".toList then some griPrompt
  else if fw = "CDP".toList then some csrdPrompt
  else none

/-! ### String helpers for the service -/

/-- Python `needle in hay` for strings: substring containment. -/
def containsSub (needle : List Char) : List Char → Bool
  | [] => needle.isEmpty
  | c :: rest => needle.isPrefixOf (c :: rest) || containsSub needle rest

/-- Python `str.split(',')`. -/
def splitComma : List Char → List (List Char)
  | [] => [[]]
  | c :: rest =>
    let r := splitComma rest
    if c = ',' then [] :: r else (c :: r.headI) :: r.tail

/-- Python `str.lower()` (ASCII). -/
def pyLower (l : List Char) : List Char := l.map Char.toLower

/-- `[fw.strip() for fw in framework_focus.split(',') if fw.strip()]` -/
def parseFrameworks (framework_focus : List Char) : List (List Char) :=
  ((splitComma framework_focus).map pyStrip).filter (fun fw => !fw.isEmpty)

/-- `[fw.strip().upper() for fw in framework_focus.split(',') if fw.strip()]` -/
def parseFrameworksUpper (framework_focus : List Char) : List (List Char) :=
  (parseFrameworks framework_focus).map (List.map Char.toUpper)

/-- Python truthiness of an `Optional[str]` (`None` and `""` are falsy). -/
def truthyStr : Option (List Char) → Bool
  | none => false
  | some s => !s.isEmpty

/-- Python truthiness of an `Optional[list]` (`None` and `[]` are falsy). -/
def truthyDocs : Option (List RetrievedDoc) → Bool
  | none => false
  | some l => !l.isEmpty

/-- The multi-framework combined template (the f-string at the heart of
`_select_prompt_template`). -/
def combinedTemplate (frameworks : List (List Char)) : List Char :=
  "You are an expert ESG consultant with expertise in multiple frameworks: ".toList ++
    List.intercalate ", ".toList frameworks ++ ".\n\n".toList ++ basePrompt ++
    "\n\nWhen providing guidance, consider the requirements and best practices from all relevant frameworks: ".toList ++
    List.intercalate ", ".toList frameworks ++ ".\n\n".toList

/-- The `for fw in frameworks: if fw in framework_templates: return ...` loop. -/
def firstTemplate : List (List Char) → Option (List Char)
  | [] => none
  | fw :: rest =>
    match frameworkTemplate fw with
    | some t => some t
    | none => firstTemplate rest

/-- Query-intent keyword detection (the tail of `_select_prompt_template`). -/
def selectByKeyword (query : List Char) : List Char :=
  let query_lower := pyLower query
  if containsSub "report".toList query_lower || containsSub "draft".toList query_lower ||
      containsSub "write".toList query_lower || containsSub "generate".toList query_lower then
    reportGenerationPrompt
  else if containsSub "compliance".toList query_lower ||
      containsSub "requirement".toList query_lower ||
      containsSub "standard".toList query_lower then
    compliancePrompt
  else if containsSub "risk".toList query_lower || containsSub "audit".toList query_lower ||
      containsSub "supply chain".toList query_lower then
    riskManagementPrompt
  else if containsSub "benchmark".toList query_lower ||
      containsSub "compare".toList query_lower || containsSub "peer".toList query_lower then
    benchmarkingPrompt
  else basePrompt

/-- `_select_prompt_template`. When several frameworks are named and at least
one is recognized, the combined template is returned; otherwise the first
template of the first recognized framework; otherwise keyword detection. -/
def selectPromptTemplate (query : List Char)
    (framework_focus : Option (List Char)) : List Char :=
  if truthyStr framework_focus then
    let frameworks := parseFrameworksUpper (framework_focus.getD [])
    if decide (1 < frameworks.length) &&
        !(frameworks.filterMap frameworkTemplate).isEmpty then
      combinedTemplate frameworks
    else
      match firstTemplate frameworks with
      | some t => t
      | none => selectByKeyword query
  else selectByKeyword query

/-- `_build_context`. -/
def buildContext (documents : List RetrievedDoc) : List Char :=
  if documents = [] then "No relevant documents found.".toList
  else
    List.intercalate "\n".toList
      (documents.enum.map fun p =>
        "Document ".toList ++ Nat.toDigits 10 (p.1 + 1) ++ " (Source: ".toList ++
          p.2.filename.getD "Unknown source".toList ++ ", Framework: ".toList ++
          p.2.framework.getD [] ++ ", Category: ".toList ++ p.2.category.getD [] ++
          "):\n".toList ++ p.2.content ++ "\n".toList)

/-- The user-role message `f"Context: {context}\n\nQuestion: {query}"`. -/
def humanMessage (context query : List Char) : List Char :=
  "Context: ".toList ++ context ++ "\n\nQuestion: ".toList ++ query

/-- The `re.sub` of the pattern `[O0]\s*$` with the empty string: delete
the leftmost occurrence of a single
`O` or `0` that is followed only by whitespace up to the end of the string
(the greedy `\s*` consumes that whitespace, so everything from the matched
character onward is removed). -/
def subTrailO0 : List Char → List Char
  | [] => []
  | c :: rest =>
    if (c = 'O' || c = '0') && rest.all isPyWs then []
    else c :: subTrailO0 rest

/-- The post-processing applied to the raw LLM text on the success path:
`.strip()`, then the trailing-`O`/`0` deletion, then `.strip()` again. -/
def postprocessLLM (raw : List Char) : List Char :=
  pyStrip (subTrailO0 (pyStrip raw))

/-! ### Suggested actions -/

def reportActions : List (List Char) :=
  ["Review the generated content for accuracy".toList,
    "Add specific company data and metrics".toList,
    "Align with your company\x27s sustainability strategy".toList]

def complianceActions : List (List Char) :=
  ["Verify requirements with your legal team".toList,
    "Check for updates to the relevant framework".toList,
    "Schedule a compliance review meeting".toList]

def riskActions : List (List Char) :=
  ["Conduct a detailed risk assessment".toList,
    "Review your supply chain policies".toList,
    "Update your risk management procedures".toList]

def genericActions : List (List Char) :=
  ["Ask follow-up questions for more specific guidance".toList,
    "Upload additional documents for context".toList,
    "Request a detailed analysis of your ESG data".toList]

/-- `_fallback_suggested_actions` (the `response` argument is unused by the
code). -/
def fallbackSuggestedActions (query response : List Char) : List (List Char) :=
  let query_lower := pyLower query
  let s1 := if containsSub "report".toList query_lower ||
      containsSub "draft".toList query_lower then reportActions else []
  let s2 := if containsSub "compliance".toList query_lower ||
      containsSub "requirement".toList query_lower then complianceActions else []
  let s3 := if containsSub "risk".toList query_lower ||
      containsSub "audit".toList query_lower then riskActions else []
  let suggestions := s1 ++ s2 ++ s3
  let suggestions := if suggestions.isEmpty then genericActions else suggestions
  suggestions.take 3

def actionSystemPrompt : List Char :=
  "ESG action suggester. Return only JSON array of 3 actionable steps. Example: [\"Review GRI standards\", \"Conduct materiality assessment\", \"Engage stakeholders\"]".toList

def actionPrompt (query response : List Char) : List Char :=
  "Query: ".toList ++ query ++ "\nResponse: ".toList ++ response.take 300 ++
    "...\nSuggest 3 actionable next steps. Return only JSON array: [\"action1\", \"action2\", \"action3\"]".toList

/-! ### The environment of external collaborators -/

/-- External collaborators of `generate_response`: the two search entry
points of the vector store, the two LLM calls, the JSON parser (`json.loads`
returning a list of strings, `none` on parse failure or a non-list), and
the wall clock. -/
structure Env where
  searchByFramework : List Char → List Char → Nat → Except (List Char) (List RetrievedDoc)
  search : List Char → Nat → Except (List Char) (List RetrievedDoc)
  llm : List Char → List Char → Except (List Char) (List Char)
  llmActions : List Char → List Char → Except (List Char) (List Char)
  parseJsonStringList : List Char → Option (List (List Char))
  tStart : ℚ
  tEnd : ℚ

/-- `_generate_suggested_actions`: total — every failure falls back to the
keyword-based suggestions. -/
def generateSuggestedActions (env : Env) (query response : List Char) :
    List (List Char) :=
  match env.llmActions actionSystemPrompt (actionPrompt query response) with
  | .ok text =>
    match env.parseJsonStringList (pyStrip text) with
    | some actions => actions.take 3
    | none => fallbackSuggestedActions query response
  | .error _ => fallbackSuggestedActions query response

/-- `all_context_docs.sort(key=lambda x: x.get("distance", 1.0))` — the
Python sort is stable, embedded by the (stable) `List.mergeSort`. -/
def distLE (a b : RetrievedDoc) : Bool := decide (getDistance a ≤ getDistance b)

def sortByDistance (docs : List RetrievedDoc) : List RetrievedDoc :=
  docs.mergeSort distLE

/-- The per-framework fan-out loop of `generate_response`: each
framework-scoped sub-query asks for 3 results; if it fails, the *unscoped*
general search is queried for 2 results instead — and if that fallback
itself fails, the exception propagates. -/
def gatherFrameworkDocs (env : Env) (query : List Char) :
    List (List Char) → Except (List Char) (List RetrievedDoc)
  | [] => .ok []
  | fw :: rest => do
    let docs ← match env.searchByFramework query fw 3 with
      | .ok ds => .ok ds
      | .error _ => env.search query 2
    let more ← gatherFrameworkDocs env query rest
    .ok (docs ++ more)

/-- The retrieval phase of `generate_response` (lines 32–52): caller-supplied
documents are used as-is when truthy; otherwise fan out per framework, merge,
re-sort by distance and truncate to 5, or run a plain search for 5. -/
def retrievePhase (env : Env) (query : List Char)
    (context_documents : Option (List RetrievedDoc))
    (framework_focus : Option (List Char)) :
    Except (List Char) (List RetrievedDoc) :=
  if truthyDocs context_documents then .ok (context_documents.getD [])
  else if truthyStr framework_focus then do
    let all ← gatherFrameworkDocs env query
      (parseFrameworks (framework_focus.getD []))
    .ok ((sortByDistance all).take 5)
  else env.search query 5

/-- The response dictionary of `generate_response`. -/
structure GenResponse where
  response : List Char
  confidence_score : ℚ
  processing_time : ℚ
  references : List RetrievedDoc
  suggested_actions : List (List Char)
deriving DecidableEq

def apologyText (e : List Char) : List Char :=
  "I apologize, but I encountered an error while processing your request: ".toList ++ e

def supportAction : List Char :=
  "Please try rephrasing your question or contact support if the issue persists.".toList

/-- `generate_response`.  The try/except covers only the LLM call and the
packaging after it; the retrieval phase is outside the try block, so a
retrieval error is returned as `.error` (in Python: the exception
propagates to the caller). -/
def generateResponse (env : Env) (query : List Char)
    (context_documents : Option (List RetrievedDoc) := none)
    (framework_focus : Option (List Char) := none) :
    Except (List Char) GenResponse := do
  let docs ← retrievePhase env query context_documents framework_focus
  let context := buildContext docs
  let prompt_template := selectPromptTemplate query framework_focus
  match env.llm prompt_template (humanMessage context query) with
  | .ok raw =>
    let ai_response := postprocessLLM raw
    let confidence_score := calculateConfidence docs
    let suggested_actions := generateSuggestedActions env query ai_response
    .ok { response := ai_response, confidence_score := confidence_score,
          processing_time := env.tEnd - env.tStart, references := docs,
          suggested_actions := suggested_actions }
  | .error e =>
    .ok { response := apologyText e, confidence_score := 0,
          processing_time := env.tEnd - env.tStart, references := [],
          suggested_actions := [supportAction] }

/-! ### C5: the confidence score -/

theorem roundHalfEven_mem {q : ℚ} (h0 : 0 ≤ q) (h1 : q ≤ 100) :
    0 ≤ roundHalfEven q ∧ roundHalfEven q ≤ 100 := by
  unfold roundHalfEven
  dsimp only
  have hfl0 : (0 : ℤ) ≤ ⌊q⌋ := Int.floor_nonneg.mpr h0
  have hfl1 : ⌊q⌋ ≤ 100 := by
    have := Int.floor_le_floor h1
    simpa using this
  have hq : (⌊q⌋ : ℚ) ≤ q := Int.floor_le q
  split_ifs with hr1 hr2 he
  · exact ⟨hfl0, hfl1⟩
  · refine ⟨by omega, ?_⟩
    by_contra hc
    have h100 : ⌊q⌋ = 100 := by omega
    rw [h100] at hr2
    push_cast at hr2
    linarith
  · exact ⟨hfl0, hfl1⟩
  · refine ⟨by omega, ?_⟩
    by_contra hc
    have h100 : ⌊q⌋ = 100 := by omega
    rw [h100] at hr1
    push_cast at hr1
    linarith

theorem pyRound2_mem {q : ℚ} (h0 : 0 ≤ q) (h1 : q ≤ 1) :
    0 ≤ pyRound2 q ∧ pyRound2 q ≤ 1 := by
  unfold pyRound2
  obtain ⟨ha, hb⟩ := roundHalfEven_mem (q := q * 100) (by positivity) (by linarith)
  constructor
  · apply div_nonneg _ (by norm_num)
    exact_mod_cast ha
  · rw [div_le_one (by norm_num)]
    exact_mod_cast hb

theorem clamp01_mem (x : ℚ) : 0 ≤ max 0 (min 1 x) ∧ max 0 (min 1 x) ≤ 1 :=
  ⟨le_max_left 0 _, max_le (by norm_num) (min_le_left 1 x)⟩

def demoDoc : RetrievedDoc :=
  { content := [], filename := none, framework := none, category := none,
    distance := some (1 / 10), id := [] }

theorem calculateConfidence_demo : calculateConfidence [demoDoc] = 9 / 10 := by
  unfold calculateConfidence demoDoc getDistance
  norm_num
  unfold pyRound2 roundHalfEven
  norm_num

/-- C5: for every retrieved-result list, `_calculate_confidence` computes
exactly the formula of the spec, `clamp(1 - mean(distance), 0, 1)`, rounded to 2
decimals (distances defaulting to 1.0 when absent), the result always lies
in [0, 1], the empty list yields exactly 0, and a single result at distance
0.1 yields 0.9. -/
theorem confidence_clamped_mean (documents : List RetrievedDoc) :
    calculateConfidence documents = specConfidence (documents.map getDistance) ∧
      0 ≤ calculateConfidence documents ∧ calculateConfidence documents ≤ 1 ∧
      (documents = [] → calculateConfidence documents = 0) ∧
      calculateConfidence [demoDoc] = 9 / 10 := by
  refine ⟨?_, ?_, ?_, ?_, calculateConfidence_demo⟩
  · unfold calculateConfidence specConfidence
    by_cases h : documents = []
    · simp [h]
    · rw [if_neg h, if_neg (by simpa using h), List.length_map]
  · unfold calculateConfidence
    dsimp only
    split_ifs with h
    · norm_num
    · exact (pyRound2_mem (clamp01_mem _).1 (clamp01_mem _).2).1
  · unfold calculateConfidence
    dsimp only
    split_ifs with h
    · norm_num
    · exact (pyRound2_mem (clamp01_mem _).1 (clamp01_mem _).2).2
  · intro h
    rw [h]
    rfl

theorem confidence_clamped_mean_witness :
    calculateConfidence [] = 0 ∧ 0 ≤ calculateConfidence [] :=
  ⟨(confidence_clamped_mean []).2.2.2.1 rfl, (confidence_clamped_mean []).2.1⟩

/-! ### C8: the fallback suggested actions -/

/-- C8 (counterexample): the suggested-action keyword families are *not*
the same families as prompt-template selection: the query `"write"` selects
the report-generation template in `_select_prompt_template` (family
{report, draft, write, generate}), but `_fallback_suggested_actions` only
checks {report, draft}, so for the same query it returns the generic
suggestions, not the candidate actions of the report family. -/
theorem suggested_actions_families_differ :
    selectPromptTemplate "write".toList none = reportGenerationPrompt ∧
      fallbackSuggestedActions "write".toList [] = genericActions ∧
      genericActions ≠ reportActions := by
  refine ⟨rfl, rfl, ?_⟩
  intro h
  have := congrArg (fun l => l.headI) h
  simp only [genericActions, reportActions, List.headI] at this
  have := congrArg (fun l => l.headI) this
  simp at this

/-- C8 (amended): `_fallback_suggested_actions` matches the lower-cased
query against the families {report, draft}, {compliance, requirement},
{risk, audit} — *subsets* of the prompt-template families of §4.5 — each
matching family appends its three fixed candidate actions; generic
suggestions are used when no family matches; after capping at 3, the result
always has exactly 3 entries, and the actions of the first matching
family win. -/
theorem fallbackSuggestedActions_spec (query response : List Char) :
    (fallbackSuggestedActions query response).length = 3 ∧
      ((containsSub "report".toList (pyLower query) ||
          containsSub "draft".toList (pyLower query)) = true →
        fallbackSuggestedActions query response = reportActions) ∧
      ((containsSub "report".toList (pyLower query) ||
          containsSub "draft".toList (pyLower query)) = false →
        (containsSub "compliance".toList (pyLower query) ||
          containsSub "requirement".toList (pyLower query)) = true →
        fallbackSuggestedActions query response = complianceActions) ∧
      ((containsSub "report".toList (pyLower query) ||
          containsSub "draft".toList (pyLower query)) = false →
        (containsSub "compliance".toList (pyLower query) ||
          containsSub "requirement".toList (pyLower query)) = false →
        (containsSub "risk".toList (pyLower query) ||
          containsSub "audit".toList (pyLower query)) = true →
        fallbackSuggestedActions query response = riskActions) ∧
      ((containsSub "report".toList (pyLower query) ||
          containsSub "draft".toList (pyLower query)) = false →
        (containsSub "compliance".toList (pyLower query) ||
          containsSub "requirement".toList (pyLower query)) = false →
        (containsSub "risk".toList (pyLower query) ||
          containsSub "audit".toList (pyLower query)) = false →
        fallbackSuggestedActions query response = genericActions) := by
  unfold fallbackSuggestedActions
  rcases h1 : (containsSub "report".toList (pyLower query) ||
      containsSub "draft".toList (pyLower query)) <;>
    rcases h2 : (containsSub "compliance".toList (pyLower query) ||
      containsSub "requirement".toList (pyLower query)) <;>
    rcases h3 : (containsSub "risk".toList (pyLower query) ||
      containsSub "audit".toList (pyLower query)) <;>
    (refine ⟨?_, ?_, ?_, ?_, ?_⟩ <;>
      simp only [h1, h2, h3] <;>
      simp [reportActions, complianceActions, riskActions, genericActions])

theorem fallbackSuggestedActions_spec_witness :
    (fallbackSuggestedActions "report".toList []).length = 3 ∧
      fallbackSuggestedActions "report".toList [] = reportActions :=
  ⟨(fallbackSuggestedActions_spec "report".toList []).1,
    (fallbackSuggestedActions_spec "report".toList []).2.1 (by decide)⟩

/-! ### The two exit paths of `generate_response` -/

theorem except_bind_ok {ε α β : Type} (a : α) (f : α → Except ε β) :
    (Except.ok a : Except ε α) >>= f = f a := rfl

/-- On the success path, `generate_response` packages the post-processed
LLM text with the retrieval-based confidence, the references and the
suggested actions. -/
theorem generateResponse_success (env : Env) (query : List Char)
    (ctx : Option (List RetrievedDoc)) (ff : Option (List Char))
    (docs : List RetrievedDoc) (raw : List Char)
    (hret : retrievePhase env query ctx ff = .ok docs)
    (hllm : env.llm (selectPromptTemplate query ff)
        (humanMessage (buildContext docs) query) = .ok raw) :
    generateResponse env query ctx ff =
      .ok { response := postprocessLLM raw,
            confidence_score := calculateConfidence docs,
            processing_time := env.tEnd - env.tStart,
            references := docs,
            suggested_actions :=
              generateSuggestedActions env query (postprocessLLM raw) } := by
  unfold generateResponse
  rw [hret, except_bind_ok]
  dsimp only
  rw [hllm]

/-- On the failure path, `generate_response` returns the degraded response. -/
theorem generateResponse_failure_eq (env : Env) (query : List Char)
    (ctx : Option (List RetrievedDoc)) (ff : Option (List Char))
    (docs : List RetrievedDoc) (e : List Char)
    (hret : retrievePhase env query ctx ff = .ok docs)
    (hllm : env.llm (selectPromptTemplate query ff)
        (humanMessage (buildContext docs) query) = .error e) :
    generateResponse env query ctx ff =
      .ok { response := apologyText e,
            confidence_score := 0,
            processing_time := env.tEnd - env.tStart,
            references := [],
            suggested_actions := [supportAction] } := by
  unfold generateResponse
  rw [hret, except_bind_ok]
  dsimp only
  rw [hllm]

/-- C4: whenever the LLM call inside `generate_response` raises,
`generate_response` still returns (never raises) an object with all five
fields populated: the fixed apologetic text embedding the error text,
confidence exactly 0, empty references, one generic suggested action, and
a processing time that is non-negative whenever the clock is monotone. -/
theorem generateResponse_llm_failure (env : Env) (query : List Char)
    (ctx : Option (List RetrievedDoc)) (ff : Option (List Char))
    (docs : List RetrievedDoc) (e : List Char)
    (hret : retrievePhase env query ctx ff = .ok docs)
    (hllm : env.llm (selectPromptTemplate query ff)
        (humanMessage (buildContext docs) query) = .error e)
    (hclock : env.tStart ≤ env.tEnd) :
    generateResponse env query ctx ff =
        .ok { response := apologyText e,
              confidence_score := 0,
              processing_time := env.tEnd - env.tStart,
              references := [],
              suggested_actions := [supportAction] } ∧
      0 ≤ env.tEnd - env.tStart :=
  ⟨generateResponse_failure_eq env query ctx ff docs e hret hllm, by linarith⟩

def envLLMDown : Env :=
  { searchByFramework := fun _ _ _ => .ok [],
    search := fun _ _ => .ok [],
    llm := fun _ _ => .error "Request timed out".toList,
    llmActions := fun _ _ => .error [],
    parseJsonStringList := fun _ => none,
    tStart := 0, tEnd := 1 }

theorem generateResponse_llm_failure_witness :
    generateResponse envLLMDown "q".toList none none =
        .ok { response := apologyText "Request timed out".toList,
              confidence_score := 0,
              processing_time := envLLMDown.tEnd - envLLMDown.tStart,
              references := [],
              suggested_actions := [supportAction] } ∧
      0 ≤ envLLMDown.tEnd - envLLMDown.tStart :=
  generateResponse_llm_failure envLLMDown "q".toList none none []
    "Request timed out".toList rfl rfl (by show (0 : ℚ) ≤ 1; norm_num)

/-! ### C9: the trailing `O`/`0` deletion -/

/-- C9: on every successful LLM call the response text returned by
`generate_response` is the post-processed LLM output — stripped, with a
single trailing `O` or `0` (plus any whitespace after it) deleted, and
stripped again — not the verbatim output: the answer `"100"` is returned
altered, as `"10"`. -/
theorem generateResponse_altered_text (env : Env) (query : List Char)
    (ctx : Option (List RetrievedDoc)) (ff : Option (List Char))
    (docs : List RetrievedDoc) (raw : List Char) (r : GenResponse)
    (hret : retrievePhase env query ctx ff = .ok docs)
    (hllm : env.llm (selectPromptTemplate query ff)
        (humanMessage (buildContext docs) query) = .ok raw)
    (hresp : generateResponse env query ctx ff = .ok r) :
    r.response = postprocessLLM raw ∧
      postprocessLLM "100".toList = "10".toList ∧
      postprocessLLM "100".toList ≠ "100".toList := by
  refine ⟨?_, by decide, by decide⟩
  have h := generateResponse_success env query ctx ff docs raw hret hllm
  rw [hresp] at h
  have := Except.ok.inj h
  rw [this]

def envLLM100 : Env :=
  { searchByFramework := fun _ _ _ => .ok [],
    search := fun _ _ => .ok [],
    llm := fun _ _ => .ok "100".toList,
    llmActions := fun _ _ => .error [],
    parseJsonStringList := fun _ => none,
    tStart := 0, tEnd := 0 }

theorem generateResponse_altered_text_witness :
    ∃ r : GenResponse, generateResponse envLLM100 "q".toList none none = .ok r ∧
      r.response = postprocessLLM "100".toList ∧
      r.response = "10".toList := by
  refine ⟨{ response := postprocessLLM "100".toList,
            confidence_score := calculateConfidence [],
            processing_time := envLLM100.tEnd - envLLM100.tStart,
            references := [],
            suggested_actions := generateSuggestedActions envLLM100 "q".toList
              (postprocessLLM "100".toList) }, ?_, ?_, by decide⟩
  · exact generateResponse_success envLLM100 "q".toList none none [] "100".toList
      rfl rfl
  · exact (generateResponse_altered_text envLLM100 "q".toList none none []
      "100".toList _ rfl rfl
        (generateResponse_success envLLM100 "q".toList none none [] "100".toList
          rfl rfl)).1

/-! ### C1: which retrieval failures are recovered -/

def envIndexDown : Env :=
  { searchByFramework := fun _ _ _ => .error "index unavailable".toList,
    search := fun _ _ => .error "index unavailable".toList,
    llm := fun _ _ => .ok [],
    llmActions := fun _ _ => .ok [],
    parseJsonStringList := fun _ => none,
    tStart := 0, tEnd := 0 }

/-- C1 (counterexample): a vector-index exception *can* escape
`generate_response`: when the framework-scoped sub-query fails, the
fallback is the unscoped `search(query, 2)` — and that fallback call sits
outside any try/except, so if it raises too, the exception propagates to
the caller (here: `generate_response` returns the error instead of a
response object). -/
theorem retrieval_error_escapes :
    generateResponse envIndexDown "q".toList none (some "GRI".toList) =
      .error "index unavailable".toList := rfl

/-- Every framework list is gathered successfully when the unscoped search
never fails (the framework-scoped search may fail arbitrarily). -/
theorem gatherFrameworkDocs_total (env : Env) (query : List Char)
    (hs : ∀ q n, ∃ r, env.search q n = .ok r) :
    ∀ fws, ∃ ds, gatherFrameworkDocs env query fws = .ok ds
  | [] => ⟨[], rfl⟩
  | fw :: rest => by
    obtain ⟨ds, hds⟩ := gatherFrameworkDocs_total env query hs rest
    cases h : env.searchByFramework query fw 3 with
    | ok d =>
      refine ⟨d ++ ds, ?_⟩
      rw [gatherFrameworkDocs, h]
      dsimp only
      rw [except_bind_ok, hds, except_bind_ok]
    | error e =>
      obtain ⟨d, hd2⟩ := hs query 2
      refine ⟨d ++ ds, ?_⟩
      rw [gatherFrameworkDocs, h]
      dsimp only
      rw [hd2, except_bind_ok, hds, except_bind_ok]

/-- C1 (amended): a failed framework-scoped sub-query is replaced by an
unscoped general query for the reduced count 2; and provided the *unscoped*
search never fails, no exception escapes `generate_response` — but an
exception of the unscoped search itself (fallback or default path) does
propagate (see the counterexample). -/
theorem retrieval_fallback_behavior :
    (∀ (env : Env) (query fw : List Char) (rest : List (List Char)) (e : List Char),
      env.searchByFramework query fw 3 = .error e →
      gatherFrameworkDocs env query (fw :: rest) =
        env.search query 2 >>= fun ds =>
          gatherFrameworkDocs env query rest >>= fun more => .ok (ds ++ more)) ∧
    (∀ (env : Env) (query : List Char) (ctx : Option (List RetrievedDoc))
        (ff : Option (List Char)),
      (∀ q n, ∃ r, env.search q n = .ok r) →
      ∃ resp, generateResponse env query ctx ff = .ok resp) := by
  constructor
  · intro env query fw rest e h
    rw [gatherFrameworkDocs, h]
  · intro env query ctx ff hs
    have hr : ∃ docs, retrievePhase env query ctx ff = .ok docs := by
      unfold retrievePhase
      by_cases h1 : truthyDocs ctx = true
      · rw [if_pos h1]
        exact ⟨_, rfl⟩
      · rw [if_neg h1]
        by_cases h2 : truthyStr ff = true
        · rw [if_pos h2]
          obtain ⟨ds, hds⟩ := gatherFrameworkDocs_total env query hs
            (parseFrameworks (ff.getD []))
          rw [hds, except_bind_ok]
          exact ⟨_, rfl⟩
        · rw [if_neg h2]
          exact hs query 5
    obtain ⟨docs, hdocs⟩ := hr
    cases hl : env.llm (selectPromptTemplate query ff)
        (humanMessage (buildContext docs) query) with
    | ok raw => exact ⟨_, generateResponse_success env query ctx ff docs raw hdocs hl⟩
    | error e => exact ⟨_, generateResponse_failure_eq env query ctx ff docs e hdocs hl⟩

def envFwDown : Env :=
  { searchByFramework := fun _ _ _ => .error "no framework index".toList,
    search := fun _ _ => .ok [demoDoc],
    llm := fun _ _ => .ok "fine".toList,
    llmActions := fun _ _ => .error [],
    parseJsonStringList := fun _ => none,
    tStart := 0, tEnd := 0 }

theorem retrieval_fallback_behavior_witness :
    gatherFrameworkDocs envFwDown "q".toList ("GRI".toList :: []) =
        (envFwDown.search "q".toList 2 >>= fun ds =>
          gatherFrameworkDocs envFwDown "q".toList [] >>= fun more =>
            .ok (ds ++ more)) ∧
      ∃ resp, generateResponse envFwDown "q".toList none (some "GRI".toList) =
        .ok resp :=
  ⟨retrieval_fallback_behavior.1 envFwDown "q".toList "GRI".toList []
      "no framework index".toList rfl,
    retrieval_fallback_behavior.2 envFwDown "q".toList none (some "GRI".toList)
      fun _ _ => ⟨[demoDoc], rfl⟩⟩

/-! ### C10: an explicitly empty context list behaves like an omitted one -/

def envSearchDemo : Env :=
  { searchByFramework := fun _ _ _ => .ok [],
    search := fun _ _ => .ok [demoDoc],
    llm := fun _ _ => .ok "ok".toList,
    llmActions := fun _ _ => .error [],
    parseJsonStringList := fun _ => none,
    tStart := 0, tEnd := 0 }

/-- C10: `context_documents=[]` is falsy in Python, so passing an empty list
behaves identically to omitting the argument: retrieval runs against the
index (5 results in the plain path), and on a successful generation the
returned references are the retrieved results, not the empty caller-supplied
list. -/
theorem emptyCtx_same_as_omitted :
    (∀ (env : Env) (query : List Char) (ff : Option (List Char)),
      generateResponse env query (some []) ff = generateResponse env query none ff) ∧
    (∀ (env : Env) (query : List Char),
      retrievePhase env query (some []) none = env.search query 5) ∧
    (∀ (env : Env) (query : List Char) (docs : List RetrievedDoc)
        (raw : List Char) (r : GenResponse),
      env.search query 5 = .ok docs →
      env.llm (selectPromptTemplate query none)
        (humanMessage (buildContext docs) query) = .ok raw →
      generateResponse env query (some []) none = .ok r →
      r.references = docs) := by
  refine ⟨fun env query ff => rfl, fun env query => rfl, ?_⟩
  intro env query docs raw r hsearch hllm hresp
  have hret : retrievePhase env query (some []) none = .ok docs := hsearch
  have h := generateResponse_success env query (some []) none docs raw hret hllm
  rw [hresp] at h
  rw [Except.ok.inj h]

theorem emptyCtx_same_as_omitted_witness :
    generateResponse envSearchDemo "q".toList (some []) none =
        generateResponse envSearchDemo "q".toList none none ∧
      retrievePhase envSearchDemo "q".toList (some []) none =
        envSearchDemo.search "q".toList 5 ∧
      ∃ r, generateResponse envSearchDemo "q".toList (some []) none = .ok r ∧
        r.references = [demoDoc] := by
  refine ⟨emptyCtx_same_as_omitted.1 envSearchDemo "q".toList none,
    emptyCtx_same_as_omitted.2.1 envSearchDemo "q".toList, ?_⟩
  have hok := generateResponse_success envSearchDemo "q".toList (some []) none
    [demoDoc] "ok".toList rfl rfl
  exact ⟨_, hok, emptyCtx_same_as_omitted.2.2 envSearchDemo "q".toList [demoDoc]
    "ok".toList _ rfl rfl hok⟩

/-! ### C6: the merged multi-framework results -/

theorem distLE_trans : ∀ a b c : RetrievedDoc, distLE a b → distLE b c → distLE a c := by
  intro a b c hab hbc
  unfold distLE at *
  simp only [decide_eq_true_eq] at *
  exact le_trans hab hbc

theorem distLE_total : ∀ a b : RetrievedDoc, distLE a b || distLE b a := by
  intro a b
  unfold distLE
  rcases le_total (getDistance a) (getDistance b) with h | h <;> simp [h]

theorem sortByDistance_sorted (docs : List RetrievedDoc) :
    (sortByDistance docs).Pairwise (fun a b => getDistance a ≤ getDistance b) :=
  (List.sorted_mergeSort distLE_trans distLE_total docs).imp fun h =>
    of_decide_eq_true h

/-- Stability of the merge: for every distance value, the results at that
distance appear in the sorted list in exactly the order in which their
sub-queries contributed them. -/
theorem sortByDistance_stable (docs : List RetrievedDoc) (d : ℚ) :
    (sortByDistance docs).filter (fun x => decide (getDistance x = d)) =
      docs.filter (fun x => decide (getDistance x = d)) := by
  set p : RetrievedDoc → Bool := fun x => decide (getDistance x = d) with hp
  have hpair : (docs.filter p).Pairwise (fun a b => distLE a b) := by
    apply List.pairwise_of_forall_mem_list
    intro a ha b hb
    rw [List.mem_filter] at ha hb
    have hda : getDistance a = d := of_decide_eq_true ha.2
    have hdb : getDistance b = d := of_decide_eq_true hb.2
    unfold distLE
    rw [hda, hdb]
    simp
  have h1 : List.Sublist (docs.filter p) (sortByDistance docs) :=
    List.sublist_mergeSort distLE_trans distLE_total hpair (List.filter_sublist docs)
  have h2 : (docs.filter p).filter p = docs.filter p := by
    rw [List.filter_filter]
    apply List.filter_congr
    intro x hx
    simp
  have h3 : List.Sublist (docs.filter p) ((sortByDistance docs).filter p) := by
    rw [← h2]
    exact h1.filter p
  have hlen : ((sortByDistance docs).filter p).length = (docs.filter p).length := by
    rw [← List.countP_eq_length_filter, ← List.countP_eq_length_filter]
    exact (List.mergeSort_perm docs distLE).countP_eq p
  exact (h3.eq_of_length hlen.symm).symm

/-- C6: with multi-framework focus and no caller context, the context list
is the concatenation of the per-framework sub-query results, re-sorted
non-decreasing by distance by a stable sort and truncated to 5. -/
theorem retrieval_merge_sorted (env : Env) (query ff : List Char)
    (all : List RetrievedDoc)
    (hff : ff ≠ [])
    (hgather : gatherFrameworkDocs env query (parseFrameworks ff) = .ok all) :
    retrievePhase env query none (some ff) = .ok ((sortByDistance all).take 5) ∧
      ((sortByDistance all).take 5).length ≤ 5 ∧
      ((sortByDistance all).take 5).Pairwise
        (fun a b => getDistance a ≤ getDistance b) ∧
      ∀ d : ℚ, (sortByDistance all).filter (fun x => decide (getDistance x = d)) =
        all.filter (fun x => decide (getDistance x = d)) := by
  refine ⟨?_, ?_, ?_, fun d => sortByDistance_stable all d⟩
  · unfold retrievePhase
    have ht : truthyStr (some ff) = true := by
      cases ff
      · exact absurd rfl hff
      · rfl
    rw [if_neg (by simp [truthyDocs]), if_pos ht, Option.getD_some, hgather,
      except_bind_ok]
  · rw [List.length_take]
    exact min_le_left _ _
  · exact (sortByDistance_sorted all).sublist (List.take_sublist 5 _)

def docG1 : RetrievedDoc :=
  { content := "g1".toList, filename := none, framework := some "GRI".toList,
    category := none, distance := some 2, id := "g1".toList }

def docG2 : RetrievedDoc :=
  { content := "g2".toList, filename := none, framework := some "GRI".toList,
    category := none, distance := some 1, id := "g2".toList }

def docT1 : RetrievedDoc :=
  { content := "t1".toList, filename := none, framework := some "TCFD".toList,
    category := none, distance := some 1, id := "t1".toList }

def envTwoFw : Env :=
  { searchByFramework := fun _ fw _ =>
      if fw = "GRI".toList then .ok [docG1, docG2] else .ok [docT1],
    search := fun _ _ => .ok [],
    llm := fun _ _ => .ok [],
    llmActions := fun _ _ => .error [],
    parseJsonStringList := fun _ => none,
    tStart := 0, tEnd := 0 }

theorem retrieval_merge_sorted_witness :
    retrievePhase envTwoFw "q".toList none (some "GRI,TCFD".toList) =
      .ok ((sortByDistance [docG1, docG2, docT1]).take 5) :=
  (retrieval_merge_sorted envTwoFw "q".toList "GRI,TCFD".toList
    [docG1, docG2, docT1] (by decide) rfl).1

end ESGCopilot
